import Mathlib
/-!
# Verification of the prediction orchestration core

Shallow embedding of `backend/app/models/model_handler.py` (goal-scoring
prediction service) and proofs of the specification claims about it.

Conventions used throughout the embedding:

* Python floats are modelled as rationals (`ℚ`); every arithmetic operation
  performed by the code (`+`, `*`, `/`, `max`, `min`, `abs`, `floor`) is exact
  on the inputs the claims speak about, so "within floating tolerance"
  statements are proved exactly.
* A Python dict field is modelled by `PyOpt α := Option (Option α)`:
  `none` = key absent, `some none` = key present holding `None`,
  `some (some a)` = key present holding the value `a`.
* Randomness (`np.random.normal`, `np.random.random`, `np.random.poisson`) is
  modelled by explicit parameters carrying the outcome of each draw.
* Fallible code is modelled with `Except PyErr` / `Option`; a `.error` value
  is a raised Python exception carrying its message.
* Opaque external collaborators (pickled estimators, Keras models, fitted
  scalers, `scipy.stats.poisson.pmf`) are type parameters / function
  parameters of the embedding, exactly as the spec treats them
  (out-of-scope, loaded and called through a uniform interface).
-/

/-- A Python dict entry: `none` = key absent, `some none` = key present with
value `None`, `some (some a)` = key present with value `a`. -/
abbrev PyOpt (α : Type) : Type := Option (Option α)
/-- Python `d.get(key, default)` for a `PyOpt` field: the stored value when the key
is present, otherwise the default. -/
def PyOpt.getOr {α : Type} (f : PyOpt α) (d : Option α) : Option α :=
  f.getD d
/-- Python `key in d` for a `PyOpt` field. -/
def PyOpt.containsKey {α : Type} (f : PyOpt α) : Bool :=
  f.isSome
/-- Truthiness of `d.get(key, default)` for a boolean-valued field: an absent
key yields the default, a key holding `None` is falsy, a stored boolean is
itself. -/
def PyOpt.truthyOr (f : PyOpt Bool) (d : Bool) : Bool :=
  match f with
  | none => d
  | some none => false
  | some (some b) => b
/-- Python exceptions that the embedded code can raise. -/
inductive PyErr : Type where
  | valueError (msg : String)
  | unboundLocal (var : String)
  | typeError (msg : String)
  | other (msg : String)
deriving DecidableEq, Repr
/-- Human-readable message of an exception, as `str(e)` renders it. -/
def PyErr.msg : PyErr → String
  | .valueError m => m
  | .unboundLocal v => String.append (String.append ("local variable '") v) ("' referenced before assignment")
  | .typeError m => m
  | .other m => m
/-!
## `redondeo_probabilistico_mejorado` (model_handler.py lines 122-157)

The source maps the rule below over a list of raw predictions; every call
site in the file applies it to a one-element list `[pred]` and takes element
`[0]`, so the embedding is the single-element rule.  The two random draws of
one application — the Gaussian perturbation `np.random.normal(0, varianza)`
and the uniform `np.random.random()` — are the explicit parameters `noise`
and `u`. -/
def redondeo_probabilistico_mejorado (pred noise u : ℚ) : ℤ :=
  let p := max 0 pred
  let parte_entera : ℤ := ⌊p⌋
  let parte_decimal : ℚ := p - parte_entera
  let prob_ajustada := min (max (parte_decimal + noise) 0) 1
  if u < prob_ajustada then parte_entera + 1 else parte_entera
/-- The confidence the inference adapters derive from a raw estimate and its
probabilistically rounded value: `1.0 - abs(pred - pred_redondeada)`
(model_handler.py lines 1569, 1622, 1711). -/
def confidence_from_rounding (pred : ℚ) (rounded : ℤ) : ℚ :=
  1 - |pred - (rounded : ℚ)|
/-!
## Result dictionaries

One structure models every result dict built by the engine; each field is a
`PyOpt`, so the shapes that differ between call sites (e.g. the SARIMAX
failure dict has no `raw_prediction` key, the ensemble success dict has a
`dynamic_weights` key) are expressed by which fields are absent.  The
`metadata` key only carries descriptive diagnostics (model name, shapes,
feature lists) that no claim refers to, so it is not modelled. -/
structure PredictionResult : Type where
  disponible : PyOpt Bool := none
  prediction : PyOpt ℤ := none
  confidence : PyOpt ℚ := none
  raw_prediction : PyOpt ℚ := none
  error : PyOpt String := none
  probability_distribution : PyOpt (List (String × ℚ)) := none
  dynamic_weights : PyOpt (List (String × ℚ)) := none
deriving DecidableEq, Repr
/-- Constant `MODEL_WEIGHTS` from `app/config.py`: lstm 0.4, sarimax 0.3, poisson 0.3. -/
def MODEL_WEIGHTS : List (String × ℚ) := [("lstm", 2/5), ("sarimax", 3/10), ("poisson", 3/10)]
/-!
## `PredictionEngine.calculate_prediction_ensemble` (lines 1816-1896)

Python dicts are modelled as association lists in insertion order; `d.get`
is `List.lookup` with a default, a dict comprehension is `List.map`, and
`sum(d.values())` is the sum over second components.  A `TypeError` the
source would raise (arithmetic on a key stored as `None`) makes the
embedding return `none`. -/

/-- The filter on lines 1832-1835: keep models with a truthy
`pred.get("disponible", False)` for which `"raw_prediction" in pred`. -/
def available_predictions (predictions : List (String × PredictionResult)) :
    List (String × PredictionResult) :=
  predictions.filter fun mp =>
    mp.2.disponible.truthyOr false && mp.2.raw_prediction.containsKey
/-- Reading `pred.get("confidence", 0.5)` as a number: a key holding `None`
makes the source raise `TypeError` on `0.5 + confidence`, modelled as
`none`. -/
def confidence_value (f : PyOpt ℚ) : Option ℚ :=
  match f.getOr (some (1/2)) with
  | some c => some c
  | none => none
/-- A Python `for` loop that computes one value per element and raises as
soon as one computation raises: `none` short-circuits like the exception
would. -/
def optionMapList {α β : Type} (f : α → Option β) : List α → Option (List β)
  | [] => some []
  | a :: t => (f a).bind fun b => (optionMapList f t).map fun bs => b :: bs
/-- Lines 1848-1860: one confidence-adjusted weight per available model,
`weights.get(model, 1.0) * (0.5 + confidence)`. -/
def dynamic_weights_raw (avail : List (String × PredictionResult))
    (weights : List (String × ℚ)) : Option (List (String × ℚ)) :=
  optionMapList (fun mp =>
    (confidence_value mp.2.confidence).map fun c =>
      (mp.1, ((weights.lookup mp.1).getD 1) * (1/2 + c))) avail
/-- Lines 1862-1868: rescale to total 1 when the adjusted total is positive,
otherwise fall back to equal weights over the available models. -/
def normalize_dynamic_weights (dyn : List (String × ℚ))
    (avail : List (String × PredictionResult)) : List (String × ℚ) :=
  let total := (dyn.map (·.2)).sum
  if 0 < total then dyn.map fun kv => (kv.1, kv.2 / total)
  else avail.map fun mp => (mp.1, 1 / (avail.length : ℚ))
/-- Lines 1870-1875: `Σ raw_prediction * dynamic_weights.get(model, 0)`; a
`raw_prediction` key stored as `None` would raise `TypeError`. -/
def ensemble_weighted_sum (avail : List (String × PredictionResult))
    (dyn : List (String × ℚ)) : Option ℚ :=
  (optionMapList (fun mp =>
    mp.2.raw_prediction.join.map fun r => r * ((dyn.lookup mp.1).getD 0)) avail).map
      (fun l => l.sum)
/-- Lines 1883-1888: `Σ confidence * weight` over the available models. -/
def ensemble_weighted_confidence (avail : List (String × PredictionResult))
    (dyn : List (String × ℚ)) : Option ℚ :=
  (optionMapList (fun mp =>
    (confidence_value mp.2.confidence).map fun c =>
      c * ((dyn.lookup mp.1).getD 0)) avail).map (fun l => l.sum)
/-- Lines 1847-1896: the successful combination path — adjust weights by
confidence, renormalize, form the weighted raw estimate, clamp at 0, round
probabilistically and average the confidences under the same weights. -/
def ensemble_combine (avail : List (String × PredictionResult))
    (w : List (String × ℚ)) (noise u : ℚ) : Option PredictionResult :=
  (dynamic_weights_raw avail w).bind fun dyn =>
    let dynN := normalize_dynamic_weights dyn avail
    (ensemble_weighted_sum avail dynN).bind fun weighted_sum =>
      let ensemble_pred := max 0 weighted_sum
      let rounded := redondeo_probabilistico_mejorado ensemble_pred noise u
      (ensemble_weighted_confidence avail dynN).map fun weighted_confidence =>
        { prediction := some (some rounded),
          confidence := some (some weighted_confidence),
          raw_prediction := some (some ensemble_pred),
          dynamic_weights := some (some dynN),
          disponible := some (some true) }
/-- Method `PredictionEngine.calculate_prediction_ensemble` (lines 1816-1896).
`weights = None` selects a copy of `MODEL_WEIGHTS`; `noise` and `u` are the
random draws consumed by the final probabilistic rounding. -/
def calculate_prediction_ensemble (predictions : List (String × PredictionResult))
    (weights : Option (List (String × ℚ))) (noise u : ℚ) :
    Option PredictionResult :=
  let w := weights.getD MODEL_WEIGHTS
  let avail := available_predictions predictions
  if avail.isEmpty then
    some { prediction := some none, confidence := some none,
           raw_prediction := some none,
           error := some (some ("No hay predicciones disponibles para ensemble")),
           disponible := some (some false) }
  else
    ensemble_combine avail w noise u
/-!
## `PredictionContext` (lines 252-289)

`self.contexts` is a `defaultdict(list)`, modelled as a total function from
player names to lists (`get_context` uses `.get(player, [])`, which agrees
with the empty default).  `match_data` snapshots are kept abstract (`μ`);
the `prediction_result` argument is the scalar `result["raw_prediction"]`
that both engine call sites (lines 1431-1435 and 2014-2018) pass, which may
be `None`, hence `Option ℚ`; the `datetime.now().isoformat()` timestamp is
an explicit parameter. -/
structure ContextEntry (μ : Type) : Type where
  match_data : μ
  prediction : Option ℚ
  timestamp : String
deriving DecidableEq, Repr
structure PredictionContext (μ : Type) : Type where
  contexts : String → List (ContextEntry μ)
  max_context_size : ℕ
/-- Construction `PredictionContext(max_context_size=10)` as the engine performs it. -/
def PredictionContext.init (μ : Type) (max_context_size : ℕ) : PredictionContext μ :=
  { contexts := fun _ => [], max_context_size := max_context_size }
/-- Lines 269-278 at the list level: append the new entry, then `pop(0)`
once if the list now exceeds `max_context_size`. -/
def bounded_append {α : Type} (max_context_size : ℕ) (context : List α) (e : α) :
    List α :=
  let context := context ++ [e]
  if max_context_size < context.length then context.drop 1 else context
/-- Method `PredictionContext.add_prediction` (lines 260-278): mutate the player's
entry of the `defaultdict` by the append-then-evict step. -/
def PredictionContext.add_prediction {μ : Type} (pc : PredictionContext μ)
    (player_name : String) (match_data : μ) (prediction_result : Option ℚ)
    (now : String) : PredictionContext μ :=
  let entry : ContextEntry μ :=
    { match_data := match_data, prediction := prediction_result, timestamp := now }
  { pc with contexts := fun p =>
      if p = player_name then
        bounded_append pc.max_context_size (pc.contexts player_name) entry
      else pc.contexts p }
/-- Method `PredictionContext.get_context` (lines 280-282). -/
def PredictionContext.get_context {μ : Type} (pc : PredictionContext μ)
    (player_name : String) : List (ContextEntry μ) :=
  pc.contexts player_name
/-!
## Frame embedding of the ensemble combiner (for the no-mutation claim)

The two argument dicts are placed in an explicit store that every step of
the computation threads; the only operations the source performs on them
are reads (`.items()`, `.get`, membership tests), modelled by `readWeights`
and `readPredictions`, so the store comes back unchanged. -/
structure EnsembleStores : Type where
  predictions : List (String × PredictionResult)
  weights : Option (List (String × ℚ))
deriving DecidableEq
/-- Read access to the caller's `weights` argument. -/
def readWeights (st : EnsembleStores) :
    Option (List (String × ℚ)) × EnsembleStores :=
  (st.weights, st)
/-- Read access to the caller's `predictions` argument. -/
def readPredictions (st : EnsembleStores) :
    List (String × PredictionResult) × EnsembleStores :=
  (st.predictions, st)
/-- Variant of `calculate_prediction_ensemble` threading its two argument dicts through
an explicit store.  Line 1829 (`weights = MODEL_WEIGHTS.copy()`) rebinds the
local name to a fresh copy; lines 1848-1868 build `dynamic_weights` as a
fresh local dict; no statement writes into either argument. -/
def calculate_prediction_ensemble_run (st : EnsembleStores) (noise u : ℚ) :
    Option PredictionResult × EnsembleStores :=
  let ws := readWeights st
  let w := ws.1.getD MODEL_WEIGHTS
  let ps := readPredictions ws.2
  let avail := available_predictions ps.1
  if avail.isEmpty then
    (some { prediction := some none, confidence := some none,
            raw_prediction := some none,
            error := some (some ("No hay predicciones disponibles para ensemble")),
            disponible := some (some false) }, ps.2)
  else
    (ensemble_combine avail w noise u, ps.2)
/-- A concrete well-formed predictions dict exercising C1's fallback branch:
one available model, weight 0 for it, so the adjusted total is 0 and the
equal-weights fallback applies. -/
def c1_witness_predictions : List (String × PredictionResult) :=
  [("lstm",
    { disponible := some (some true), prediction := some (some 1),
      confidence := some (some (7/10)), raw_prediction := some (some (13/10)) }),
   ("sarimax",
    { disponible := some (some false), prediction := some none,
      confidence := some none, raw_prediction := some none,
      error := some (some ("Modelo SARIMAX no disponible")) })]
/-- A predictions dict in which every model is unavailable. -/
def c3_witness_predictions : List (String × PredictionResult) :=
  [("lstm",
    { disponible := some (some false), prediction := some none,
      confidence := some none, raw_prediction := some none,
      error := some (some ("Error en LSTM")) }),
   ("sarimax",
    { disponible := some (some false), prediction := some none,
      confidence := some none, raw_prediction := some none,
      error := some (some ("Error en SARIMAX")) }),
   ("poisson",
    { disponible := some (some false), prediction := some none,
      confidence := some none, raw_prediction := some none,
      error := some (some ("Error en Poisson")) })]
/-!
## Historical match rows

`load_historical_data` parses `Fecha` with `errors='coerce'`, so a date is
either a valid calendar date — encoded here as its `yyyymmdd` integer, an
order-embedding of valid dates — or `NaT` (`none`).  Only the columns the
claims touch are modelled. -/
structure HistRow : Type where
  jugador : String
  fecha : Option ℤ
  goles : ℚ
  oponente_estandarizado : String
deriving DecidableEq, Repr
/-- Pandas `<` on dates: any comparison involving `NaT` is `False`. -/
def fecha_lt (a b : Option ℤ) : Bool :=
  match a, b with
  | some x, some y => decide (x < y)
  | _, _ => false
/-- Sort key used to model `sort_values('Fecha')` (ascending,
`na_position='last'`): valid dates ascending, `NaT` rows after all dated
rows. -/
def fecha_leb (a b : Option ℤ) : Bool :=
  match a, b with
  | some x, some y => decide (x ≤ y)
  | some _, none => true
  | none, none => true
  | none, some _ => false
def fecha_le_row (a b : HistRow) : Prop := fecha_leb a.fecha b.fecha = true
instance : DecidableRel fecha_le_row := fun a b => by
  unfold fecha_le_row
  infer_instance
instance : IsTotal HistRow fecha_le_row := by
  constructor
  intro a b
  unfold fecha_le_row fecha_leb
  rcases a.fecha with _ | x
  · rcases b.fecha with _ | y
    · simp
    · simp
  · rcases b.fecha with _ | y
    · simp
    · simp
      omega
instance : IsTrans HistRow fecha_le_row := by
  constructor
  intro a b c
  unfold fecha_le_row fecha_leb
  rcases a.fecha with _ | x
  · rcases b.fecha with _ | y
    · rcases c.fecha with _ | z
      · simp
      · simp
    · rcases c.fecha with _ | z
      · simp
      · simp
  · rcases b.fecha with _ | y
    · rcases c.fecha with _ | z
      · simp
      · simp
    · rcases c.fecha with _ | z
      · simp
      · simp
        omega
/-- Mean `df['Goles'].mean()` over the modelled rows.  Every use reached by the
claims has a non-empty frame; on an empty frame pandas yields `NaN`, for
which any value serves here (`0/0 = 0`). -/
def mean_goles (df : List HistRow) : ℚ :=
  (df.map (·.goles)).sum / (df.length : ℚ)
/-!
## `calcular_factores_oponente` (model_handler.py lines 160-206)

The double loop visits every row of `df_jugador` exactly once (each row
belongs to one opponent group), and what it writes into `Factor_Oponente`
at a row depends only on the original `Goles`/`Fecha`/`Oponente` columns,
so the column update is a `map`.  `factor_oponente_actual` is overwritten
at every visited row of `oponente_actual`, so its final value is the factor
of the last such row in dataframe order, and stays `1.0` when the current
opponent never appears in the history. -/

/-- The factor the loop body (lines 182-198) computes at one row: the
direct history against that row's opponent strictly before that row's
date; if non-empty, blend of 0.7 × the all-prior-meetings ratio and
0.3 × the ratio over the (chronologically) last 3 prior meetings;
otherwise 1.0.  (`hist_reciente` is non-empty whenever `hist_directo` is,
so the inner guard on line 195 is always taken.) -/
def factor_at_row (df_jugador : List HistRow) (row : HistRow) : ℚ :=
  let df_oponente := df_jugador.filter fun r =>
    r.oponente_estandarizado == row.oponente_estandarizado
  let hist_directo := df_oponente.filter fun r => fecha_lt r.fecha row.fecha
  if 0 < hist_directo.length then
    let promedio_vs_oponente := mean_goles hist_directo
    let factor := (promedio_vs_oponente + 1) / (mean_goles df_jugador + 1)
    let hist_sorted := List.insertionSort fecha_le_row hist_directo
    let hist_reciente := hist_sorted.drop (hist_sorted.length - 3)
    let factor_reciente := (mean_goles hist_reciente + 1) / (mean_goles df_jugador + 1)
    (7/10) * factor + (3/10) * factor_reciente
  else 1
/-- Function `calcular_factores_oponente`: the updated `Factor_Oponente` column and
the factor for the current opponent. -/
def calcular_factores_oponente (df_jugador : List HistRow)
    (oponente_actual : String) : List ℚ × ℚ :=
  (df_jugador.map (factor_at_row df_jugador),
   match (df_jugador.filter fun r =>
       r.oponente_estandarizado == oponente_actual).getLast? with
   | some row => factor_at_row df_jugador row
   | none => 1)
/-- The C7 scenario: five matches in date order with goals `[1,0,2,1,3]`
against opponents `[A,B,A,C,B]`. -/
def c7_history : List HistRow :=
  [{ jugador := "P", fecha := some 20250101, goles := 1, oponente_estandarizado := "A" },
   { jugador := "P", fecha := some 20250108, goles := 0, oponente_estandarizado := "B" },
   { jugador := "P", fecha := some 20250115, goles := 2, oponente_estandarizado := "A" },
   { jugador := "P", fecha := some 20250122, goles := 1, oponente_estandarizado := "C" },
   { jugador := "P", fecha := some 20250129, goles := 3, oponente_estandarizado := "B" }]
/-!
## `PredictionEngine.get_player_historical_data` (lines 520-539) -/

/-- Cutoff `pd.Timestamp('2023-01-01')` in the `yyyymmdd` encoding. -/
def fecha_inicio : ℤ := 20230101
/-- The Hugo_Rodallega date floor `player_data['Fecha'] >= fecha_inicio`:
pandas evaluates `NaT >= ts` as `False`, so undated rows are dropped. -/
def hugo_date_filter (r : HistRow) : Bool :=
  match r.fecha with
  | some d => decide (fecha_inicio ≤ d)
  | none => false
/-- Method `get_player_historical_data`: the player's rows sorted ascending by
date, with the documented extra date floor for the single identifier
`'Hugo_Rodallega'`.  Pandas' default `sort_values` kind is unstable, so
only the (date-)sortedness and the multiset of rows are specified;
`insertionSort` is one conforming refinement. -/
def get_player_historical_data (data : List HistRow) (player_name : String) :
    List HistRow :=
  let player_data := List.insertionSort fecha_le_row
    (data.filter fun r => r.jugador == player_name)
  if player_name == "Hugo_Rodallega" then
    player_data.filter hugo_date_filter
  else player_data
/-- Concrete history for the C8 witness: Hugo_Rodallega rows on both sides
of the 2023-01-01 cutoff plus another player's row. -/
def c8_data : List HistRow :=
  [{ jugador := "Hugo_Rodallega", fecha := some 20221210, goles := 1,
     oponente_estandarizado := "Junior" },
   { jugador := "Hugo_Rodallega", fecha := some 20230305, goles := 2,
     oponente_estandarizado := "Pereira" },
   { jugador := "Dayro_Moreno", fecha := some 20240101, goles := 1,
     oponente_estandarizado := "Junior" }]
/-!
## `ModelLoader.load_model` (model_handler.py lines 292-502)

The filesystem and the opaque deserialized artifacts are an environment:
`fileExists` models `os.path.exists`, `pickleLoadModel`/`pickleLoadScaler`
model `pickle.load` on the respective files (raising = `.error` with the
exception text), `kerasLoadModel` models `keras.models.load_model`, and
`fresh_scaler` is the unfitted `RobustScaler()` constructed on line 375.
Pickled model bundles are dicts as produced by training, modelled by
`ModelData` over opaque estimator/Keras-model/scaler types `E`, `K`, `S`;
`modelo_entrenado` may hold a string (checked by `isinstance(…, str)` at
line 1592), hence `String ⊕ E`.  The directory constants of `app/config.py`
are process-dependent absolute paths; their values never influence control
flow, only equality of joined paths, so fixed representatives are used. -/

def LSTM_MODELS_DIR : String := "app/models/lstm"
def SARIMAX_MODELS_DIR : String := "app/models/sarimax"
def POISSON_MODELS_DIR : String := "app/models/poisson"
def DEFAULT_WINDOW_SIZE : ℕ := 3
/-- Join `os.path.join` for one directory and file name. -/
def pathJoin (d f : String) : String := d ++ ("/") ++ f
/-- The sub-dict under the `modelo_config` key, with the fields
`load_model` reads or writes. -/
structure ModeloConfig : Type where
  tipo_modelo : PyOpt String := none
  ventana : PyOpt ℕ := none
  caracteristicas : PyOpt (List String) := none
deriving DecidableEq, Repr
/-- A model bundle dict: the keys a pickled bundle may carry plus the keys
`load_model` itself attaches. -/
structure ModelData (K S E : Type) : Type where
  disponible : PyOpt Bool := none
  error : PyOpt String := none
  error_keras : PyOpt String := none
  tipo_modelo : PyOpt String := none
  modelo_config : PyOpt ModeloConfig := none
  modelo_entrenado : PyOpt (String ⊕ E) := none
  modelo_keras : PyOpt K := none
  scaler : PyOpt S := none
deriving DecidableEq, Repr
/-- Environment of `ModelLoader.load_model`. -/
structure LoaderEnv (K S E : Type) : Type where
  hasTF : Bool
  fileExists : String → Bool
  pickleLoadModel : String → Except String (ModelData K S E)
  kerasLoadModel : String → Except String K
  pickleLoadScaler : String → Except String S
  fresh_scaler : S
/-- The unavailability dict built at lines 382-387, 390-395, 399-404,
416-421 and 492-497. -/
def unavailable_model_data {K S E : Type} (errMsg model_type : String) :
    ModelData K S E :=
  { error := some (some errMsg),
    modelo_entrenado := some none,
    modelo_config := some (some { tipo_modelo := some (some model_type) }),
    disponible := some (some false) }
/-- The default configuration attached when only an `.h5` artifact exists
(lines 355-368). -/
def default_lstm_config : ModeloConfig :=
  { tipo_modelo := some (some ("lstm")),
    ventana := some (some DEFAULT_WINDOW_SIZE),
    caracteristicas := some (some
      ["Tiros_a_puerta", "Tiros_totales", "Minutos",
       "Sede_Local", "Sede_Visitante", "Factor_Oponente",
       "Goles_Prom_3", "Goles_Prom_5",
       "Marco_Ultimo_Partido", "Goles_Ult_3", "Tendencia_Robusta",
       "Es_FinDeSemana", "Racha_Con_Gol"]) }
/-- Alternative LSTM artifact tags searched on lines 340-348. -/
def lstm_alt_tipos : List String := ["simple", "bidireccional", "gru", "ensemble"]
/-- The first alternative tag for which both the `.pkl` and `.h5` files
exist, with the corresponding paths (the loop `break`s at the first hit). -/
def find_alt_lstm {K S E : Type} (env : LoaderEnv K S E) (player_name : String) :
    Option (String × String) :=
  ((lstm_alt_tipos.filter fun tipo =>
      env.fileExists (pathJoin LSTM_MODELS_DIR (player_name ++ "_" ++ tipo ++ (".pkl"))) &&
      env.fileExists (pathJoin LSTM_MODELS_DIR (player_name ++ "_" ++ tipo ++ (".h5")))).head?).map
    fun tipo =>
      (pathJoin LSTM_MODELS_DIR (player_name ++ "_" ++ tipo ++ (".pkl")),
       pathJoin LSTM_MODELS_DIR (player_name ++ "_" ++ tipo ++ (".h5")))
/-- Rendering `str(x)` of a value that may be `None`. -/
def pyStrOpt (o : Option String) : String := o.getD ("None")
/-- Line 435: `model_data.get('tipo_modelo',
model_data.get('modelo_config', {}).get('tipo_modelo', 'simple'))`.  The
inner default is evaluated first; a `modelo_config` key holding `None`
makes the chained `.get` raise `AttributeError` inside the `try`. -/
def tipo_modelo_resolve {K S E : Type} (md : ModelData K S E) :
    Except String (Option String) :=
  match md.modelo_config with
  | some none => Except.error ("'NoneType' object has no attribute 'get'")
  | some (some cfg) =>
      Except.ok (md.tipo_modelo.getOr (cfg.tipo_modelo.getOr (some ("simple"))))
  | none =>
      Except.ok (md.tipo_modelo.getOr (some ("simple")))
/-- Lines 433-484: after a successful `pickle.load` of an LSTM bundle,
attach the companion Keras model and scaler, then mark the bundle
unavailable if neither a Keras model nor a trained estimator is present. -/
def lstm_enrich {K S E : Type} (env : LoaderEnv K S E) (player_name : String)
    (md : ModelData K S E) : Except String (ModelData K S E) :=
  (tipo_modelo_resolve md).map fun tipo =>
    let h5_path0 := pathJoin LSTM_MODELS_DIR (player_name ++ "_" ++ pyStrOpt tipo ++ (".h5"))
    let h5_path := if ¬ env.fileExists h5_path0 then
        pathJoin LSTM_MODELS_DIR ("lstm_" ++ player_name ++ (".h5"))
      else h5_path0
    let md := if env.fileExists h5_path then
        if env.hasTF then
          match env.kerasLoadModel h5_path with
          | Except.ok k => { md with modelo_keras := some (some k) }
          | Except.error e =>
              { md with modelo_keras := some none,
                        error_keras := some (some e) }
        else
          { md with modelo_keras := some none,
                    error_keras := some (some ("TensorFlow no está disponible")) }
      else
        { md with modelo_keras := some none,
                  error_keras := some (some ("Archivo H5 no encontrado")) }
    let scaler_path0 := pathJoin LSTM_MODELS_DIR
      (player_name ++ "_" ++ pyStrOpt tipo ++ ("_scaler.pkl"))
    let scaler_path := if ¬ env.fileExists scaler_path0 then
        pathJoin LSTM_MODELS_DIR ("lstm_" ++ player_name ++ ("_scaler.pkl"))
      else scaler_path0
    let md := if env.fileExists scaler_path then
        match env.pickleLoadScaler scaler_path with
        | Except.ok s => { md with scaler := some (some s) }
        | Except.error _ => { md with scaler := some none }
      else { md with scaler := some none }
    if (md.modelo_keras.getOr none).isNone &&
        (md.modelo_entrenado.getOr none).isNone then
      { md with disponible := some (some false),
                error := some (md.error_keras.getOr
                  (some ("Modelo Keras no disponible"))) }
    else md
/-- Lines 423-497: open the `.pkl`, unpickle it, enrich LSTM bundles, cache
and return.  The `except` handler first logs with an f-string that reads
the local `file_name` — which is assigned only in the sarimax/poisson
branches (lines 325, 328) — so with `file_name` unbound (the lstm branch)
the handler itself raises `UnboundLocalError` instead of returning the
fail-soft dict on line 492. -/
def load_model_try {K S E : Type} (env : LoaderEnv K S E)
    (model_cache : List (String × ModelData K S E))
    (cache_key model_type player_name model_path : String)
    (file_name : Option String) :
    Except PyErr (ModelData K S E × List (String × ModelData K S E)) :=
  let handler : String →
      Except PyErr (ModelData K S E × List (String × ModelData K S E)) :=
    fun e =>
      match file_name with
      | none => Except.error (PyErr.unboundLocal ("file_name"))
      | some _ =>
          Except.ok (unavailable_model_data ("Error al cargar el modelo: " ++ e)
            model_type, model_cache)
  match env.pickleLoadModel model_path with
  | Except.error e => handler e
  | Except.ok md0 =>
      let md1 := { md0 with disponible := some (some true) }
      if model_type == "lstm" then
        match lstm_enrich env player_name md1 with
        | Except.error e => handler e
        | Except.ok md2 =>
            Except.ok (md2, (cache_key, md2) :: model_cache)
      else
        Except.ok (md1, (cache_key, md1) :: model_cache)
/-- Method `ModelLoader.load_model` (lines 302-497).  The `model_cache` dict is
threaded explicitly; returning `.error` models an exception propagating to
the caller. -/
def ModelLoader.load_model {K S E : Type} (env : LoaderEnv K S E)
    (model_cache : List (String × ModelData K S E))
    (model_type player_name : String) :
    Except PyErr (ModelData K S E × List (String × ModelData K S E)) :=
  let cache_key := model_type ++ "_" ++ player_name
  match model_cache.lookup cache_key with
  | some md => Except.ok (md, model_cache)
  | none =>
    if model_type == "lstm" then
      let pkl_file_name := "lstm_" ++ player_name ++ (".pkl")
      let h5_file_name := "lstm_" ++ player_name ++ (".h5")
      let pkl0 := pathJoin LSTM_MODELS_DIR pkl_file_name
      let h50 := pathJoin LSTM_MODELS_DIR h5_file_name
      let paths := if ¬ env.fileExists pkl0 then
          match find_alt_lstm env player_name with
          | some p => p
          | none => (pkl0, h50)
        else (pkl0, h50)
      let pkl_model_path := paths.1
      let h5_model_path := paths.2
      if ¬ env.fileExists pkl_model_path && env.fileExists h5_model_path then
        if env.hasTF then
          match env.kerasLoadModel h5_model_path with
          | Except.ok km =>
              let md : ModelData K S E :=
                { disponible := some (some true),
                  modelo_config := some (some default_lstm_config),
                  modelo_keras := some (some km),
                  scaler := some (some env.fresh_scaler) }
              Except.ok (md, (cache_key, md) :: model_cache)
          | Except.error e =>
              Except.ok (unavailable_model_data
                ("Error al cargar modelo H5: " ++ e) model_type, model_cache)
        else
          Except.ok (unavailable_model_data ("TensorFlow no está disponible")
            model_type, model_cache)
      else if ¬ env.fileExists pkl_model_path then
        Except.ok (unavailable_model_data
          ("Modelo no encontrado: " ++ pkl_file_name) model_type, model_cache)
      else
        load_model_try env model_cache cache_key model_type player_name
          pkl_model_path none
    else if model_type == "sarimax" then
      let file_name := "arima_" ++ player_name ++ (".pkl")
      let model_path := pathJoin SARIMAX_MODELS_DIR file_name
      if ¬ env.fileExists model_path then
        Except.ok (unavailable_model_data ("Modelo no encontrado: " ++ file_name)
          model_type, model_cache)
      else
        load_model_try env model_cache cache_key model_type player_name
          model_path (some file_name)
    else if model_type == "poisson" then
      let file_name := "poisson_" ++ player_name ++ (".pkl")
      let model_path := pathJoin POISSON_MODELS_DIR file_name
      if ¬ env.fileExists model_path then
        Except.ok (unavailable_model_data ("Modelo no encontrado: " ++ file_name)
          model_type, model_cache)
      else
        load_model_try env model_cache cache_key model_type player_name
          model_path (some file_name)
    else
      Except.error (PyErr.valueError ("Tipo de modelo no válido: " ++ model_type))
/-- The C9 failing input: an `lstm_<player>.pkl` file exists but unpickling
it raises (a corrupt artifact); TensorFlow is present. -/
def c9_env : LoaderEnv Unit Unit Unit :=
  { hasTF := true,
    fileExists := fun p =>
      p == pathJoin LSTM_MODELS_DIR ("lstm_Carlos_Bacca.pkl") ||
      p == pathJoin SARIMAX_MODELS_DIR ("arima_Carlos_Bacca.pkl"),
    pickleLoadModel := fun _ => Except.error ("invalid load key"),
    kerasLoadModel := fun _ => Except.error ("no keras model"),
    pickleLoadScaler := fun _ => Except.error ("no scaler"),
    fresh_scaler := () }
/-!
## Inference adapters (model_handler.py lines 1448-1814)

The processed-features dict is modelled by the fields the adapters consult;
`hasX` / `has_formula_vars` are the `'X' in processed_data` /
`'formula_vars' in processed_data` membership tests.  What the opaque
estimator returns — the scalar extracted by the robust unwrapping blocks —
is supplied by an adapter environment, together with the outcome of every
random draw; `.error` is an exception raised inside the adapter's `try`,
caught at its end. -/
structure ProcessedData : Type where
  disponible : PyOpt Bool := none
  error : PyOpt String := none
  hasX : Bool := false
  has_formula_vars : Bool := false
deriving DecidableEq, Repr
/-- The guard shared by all three adapters (lines 1468, 1652, 1743):
`not processed_data.get("disponible", True) or "error" in processed_data`. -/
def processed_unavailable (pd : ProcessedData) : Bool :=
  !(pd.disponible.truthyOr true) || pd.error.containsKey
/-- A loop over `xs` collecting one value per element, where each step may
raise. -/
def exceptMapList {α β : Type} (f : α → Except String β) :
    List α → Except String (List β)
  | [] => Except.ok []
  | a :: t =>
    match f a with
    | Except.error e => Except.error e
    | Except.ok b => (exceptMapList f t).map fun bs => b :: bs
/-- Environment of `_predict_lstm`: `prep_error` is an exception in the
scaler/shape-handling segment of the `try` (e.g. the `n_steps` log on line
1509 when no scaler was present); `predict_vals i` is the scalar extracted
from the `i`-th `modelo.predict` repetition (lines 1530-1553, including the
`0.0` fallback); `predict_entrenado` likewise for the fallback estimator
branch (lines 1598-1613); `noise`/`u` are the rounding draws. -/
structure LstmEnv : Type where
  prep_error : Option String := none
  predict_vals : ℕ → Except String ℚ
  predict_entrenado : Except String ℚ
  noise : ℚ
  u : ℚ
/-- Method `PredictionEngine._predict_lstm` (lines 1448-1640). -/
def predict_lstm {K S E : Type} (hasTF : Bool) (model_data : ModelData K S E)
    (processed_data : ProcessedData) (env : LstmEnv) : PredictionResult :=
  let result : PredictionResult :=
    { prediction := some none, confidence := some none,
      disponible := some (some false), raw_prediction := some none }
  if ¬ hasTF then
    { result with error := some (some
        ("TensorFlow no está disponible, los modelos LSTM no se pueden usar")) }
  else if processed_unavailable processed_data then
    { result with error := some (processed_data.error.getOr
        (some ("Datos no disponibles para LSTM"))) }
  else if (model_data.modelo_keras.getOr none).isSome && processed_data.hasX then
    let outcome : Except String (List ℚ) :=
      match env.prep_error with
      | some e => Except.error e
      | none => exceptMapList env.predict_vals (List.range 5)
    match outcome with
    | Except.error e =>
        { result with error := some (some ("Error en predicción LSTM: " ++ e)) }
    | Except.ok vals =>
        let predicciones := vals.map fun p => if p < 0 then (0 : ℚ) else p
        let pred := predicciones.sum / (predicciones.length : ℚ)
        let pred_redondeada := redondeo_probabilistico_mejorado pred env.noise env.u
        { prediction := some (some pred_redondeada),
          confidence := some (some (confidence_from_rounding pred pred_redondeada)),
          raw_prediction := some (some pred),
          disponible := some (some true) }
  else if (match model_data.modelo_entrenado.getOr none with
           | some (Sum.inr _) => true
           | _ => false) && processed_data.hasX then
    match env.predict_entrenado with
    | Except.error e =>
        { result with error := some (some ("Error en predicción LSTM: " ++ e)) }
    | Except.ok v =>
        let pred := max 0 v
        let pred_redondeada := redondeo_probabilistico_mejorado pred env.noise env.u
        { prediction := some (some pred_redondeada),
          confidence := some (some (confidence_from_rounding pred pred_redondeada)),
          raw_prediction := some (some pred),
          disponible := some (some true) }
  else
    { result with error := some (some ("No hay modelo LSTM válido disponible")) }
/-- Environment of `_predict_sarimax`: `forecast_val` is the scalar the
robust unwrapping of `modelo.forecast(steps=1, …)` produces (lines
1664-1701, including the `0.0` fallback); `.error` is an exception escaping
the unwrapping (caught on line 1721). -/
structure SarimaxEnv : Type where
  forecast_val : Except String ℚ
  noise : ℚ
  u : ℚ
/-- Method `PredictionEngine._predict_sarimax` (lines 1642-1727).  Its failure
dict carries no `raw_prediction` key at all. -/
def predict_sarimax {K S E : Type} (model_data : ModelData K S E)
    (processed_data : ProcessedData) (env : SarimaxEnv) : PredictionResult :=
  let result : PredictionResult :=
    { prediction := some none, confidence := some none,
      disponible := some (some false) }
  if processed_unavailable processed_data then
    { result with error := some (processed_data.error.getOr
        (some ("Datos no disponibles para SARIMAX"))) }
  else if (model_data.modelo_entrenado.getOr none).isSome then
    match env.forecast_val with
    | Except.error e =>
        { result with error := some (some ("Error en predicción SARIMAX: " ++ e)) }
    | Except.ok v =>
        let pred_val := max 0 v
        let pred_redondeada := redondeo_probabilistico_mejorado pred_val env.noise env.u
        { prediction := some (some pred_redondeada),
          confidence := some (some (confidence_from_rounding pred_val pred_redondeada)),
          raw_prediction := some (some pred_val),
          disponible := some (some true) }
  else
    { result with error := some (some ("Modelo SARIMAX no disponible")) }
/-- Composition `np.unique` + `np.argmax`: the smallest value attaining the maximal
count (`np.unique` returns sorted values, `argmax` the first maximum). -/
def moda (l : List ℕ) : ℕ :=
  match List.insertionSort (· ≤ ·) l.dedup with
  | [] => 0
  | v :: vs => vs.foldl (fun best x => if l.count best < l.count x then x else best) v
/-- Environment of `_predict_poisson`: `lambda_val` is
`modelo.predict(df_pred)[0]`; `draws i` the `i`-th `np.random.poisson`
sample of the 10 repetitions; `pmf` is `scipy.stats.poisson.pmf`. -/
structure PoissonEnv : Type where
  lambda_val : Except String ℚ
  draws : ℕ → ℕ
  pmf : ℕ → ℚ → ℚ
/-- Method `PredictionEngine._predict_poisson` (lines 1729-1814). -/
def predict_poisson {K S E : Type} (model_data : ModelData K S E)
    (processed_data : ProcessedData) (env : PoissonEnv) : PredictionResult :=
  let result : PredictionResult :=
    { prediction := some none, confidence := some none,
      probability_distribution := some (some []),
      disponible := some (some false) }
  if processed_unavailable processed_data then
    { result with error := some (processed_data.error.getOr
        (some ("Datos no disponibles para Poisson"))) }
  else if (model_data.modelo_entrenado.getOr none).isSome &&
      processed_data.has_formula_vars then
    match env.lambda_val with
    | Except.error e =>
        { result with error := some (some ("Error en predicción Poisson: " ++ e)) }
    | Except.ok lv =>
        let lambda_pred := min (max 0 lv) 5
        let predicciones := (List.range 10).map env.draws
        let pred_final := moda predicciones
        let probs := (List.range 6).map fun i => env.pmf i lambda_pred
        let p6 := 1 - probs.sum
        let confianza := if pred_final < 6 then env.pmf pred_final lambda_pred else p6
        { prediction := some (some (pred_final : ℤ)),
          confidence := some (some confianza),
          raw_prediction := some (some lambda_pred),
          probability_distribution := some (some
            [("0", env.pmf 0 lambda_pred), ("1", env.pmf 1 lambda_pred),
             ("2", env.pmf 2 lambda_pred), ("3", env.pmf 3 lambda_pred),
             ("4", env.pmf 4 lambda_pred), ("5", env.pmf 5 lambda_pred),
             ("6+", p6)]),
          disponible := some (some true) }
  else
    { result with error := some (some
        ("Modelo Poisson no disponible o datos insuficientes")) }
/-- The confidence `_predict_poisson` reports for a given clamped λ:
the Poisson probability of the sampled mode, or the tail mass for 6+. -/
def poisson_confidence (env : PoissonEnv) (lam : ℚ) : ℚ :=
  let pred_final := moda ((List.range 10).map env.draws)
  if pred_final < 6 then env.pmf pred_final lam
  else 1 - ((List.range 6).map fun i => env.pmf i lam).sum
/-- A bundle with a (non-string) trained estimator and an empty processed
dict, as the SARIMAX adapter requires. -/
def c6_md : ModelData Unit Unit Unit :=
  { modelo_entrenado := some (some (Sum.inr ())) }
def c6_pd : ProcessedData := {}
/-- Same forecast scalar, uniform draw 1/4. -/
def c6_env1 : SarimaxEnv := { forecast_val := Except.ok (1/2), noise := 0, u := 1/4 }
/-- Same forecast scalar, uniform draw 3/4. -/
def c6_env2 : SarimaxEnv := { forecast_val := Except.ok (1/2), noise := 0, u := 3/4 }
/-!
## `PredictionEngine.predict_with_model` (model_handler.py lines 1363-1446)

The orchestrator's four internal stages — artifact loading, feature
preparation, preprocessing, and per-kind inference — are the fields of
`EngineOps`; each may raise (`.error`), which models the claim's
"whenever any internal stage raises".  The body of the `try` block (lines
1380-1437) is `predict_with_model_body`; `predict_with_model` itself wraps
it in the `except Exception` handler (lines 1439-1446) and so *always*
returns a result dict (its type is a plain pair, not `Except`): no
exception propagates to the caller, even for an invalid model kind, whose
`ValueError` (line 1427, and line 330 inside `load_model`) is raised
inside the same `try`. -/
structure EngineOps (K S E μ : Type) : Type where
  load_model : String → String → Except PyErr (ModelData K S E)
  prepare_prediction_features : String → μ → String → Except PyErr ProcessedData
  preprocess_data : ProcessedData → String → Except PyErr ProcessedData
  predict_lstm_stage : ModelData K S E → ProcessedData → Except PyErr PredictionResult
  predict_sarimax_stage : ModelData K S E → ProcessedData → Except PyErr PredictionResult
  predict_poisson_stage : ModelData K S E → ProcessedData → Except PyErr PredictionResult
/-- The unavailable-result dict the orchestrator builds (lines 1386-1391,
1400-1405, 1412-1417), with the error looked up from the failing stage's
dict under a stage-specific default. -/
def stage_error_result (err : PyOpt String) (default_msg : String) :
    PredictionResult :=
  { error := some (err.getOr (some default_msg)),
    prediction := some none, confidence := some none,
    disponible := some (some false) }
/-- The `try` body (lines 1380-1437): load, check availability, prepare,
preprocess, dispatch on the model kind, and append a context entry on a
successful result carrying a `raw_prediction` key. -/
def predict_with_model_body {K S E μ : Type} (ops : EngineOps K S E μ)
    (pc : PredictionContext μ) (player_name model_type : String)
    (match_data : μ) (now : String) :
    Except PyErr (PredictionResult × PredictionContext μ) :=
  match ops.load_model model_type player_name with
  | Except.error e => Except.error e
  | Except.ok model_data =>
    if ¬ (model_data.disponible.truthyOr false) then
      Except.ok (stage_error_result model_data.error
        ("Modelo " ++ model_type ++ " no disponible para " ++ player_name), pc)
    else match ops.prepare_prediction_features player_name match_data model_type with
    | Except.error e => Except.error e
    | Except.ok processed_data =>
      if ¬ (processed_data.disponible.truthyOr true) ||
          processed_data.error.containsKey then
        Except.ok (stage_error_result processed_data.error
          ("Error al preparar datos"), pc)
      else match ops.preprocess_data processed_data model_type with
      | Except.error e => Except.error e
      | Except.ok prediction_input =>
        if ¬ (prediction_input.disponible.truthyOr true) ||
            prediction_input.error.containsKey then
          Except.ok (stage_error_result prediction_input.error
            ("Error al preprocesar datos"), pc)
        else
          match (if model_type == "lstm" then
                   ops.predict_lstm_stage model_data prediction_input
                 else if model_type == "sarimax" then
                   ops.predict_sarimax_stage model_data prediction_input
                 else if model_type == "poisson" then
                   ops.predict_poisson_stage model_data prediction_input
                 else
                   Except.error (PyErr.valueError
                     ("Tipo de modelo no válido: " ++ model_type))) with
          | Except.error e => Except.error e
          | Except.ok result =>
            let pc' := if result.disponible.truthyOr false &&
                result.raw_prediction.containsKey then
                pc.add_prediction player_name match_data
                  result.raw_prediction.join now
              else pc
            Except.ok (result, pc')
/-- Method `predict_with_model` (lines 1363-1446): the `try` body under the
catch-all `except Exception` handler that converts any raised exception
into the unavailable-result dict. -/
def predict_with_model {K S E μ : Type} (ops : EngineOps K S E μ)
    (pc : PredictionContext μ) (player_name model_type : String)
    (match_data : μ) (now : String) :
    PredictionResult × PredictionContext μ :=
  match predict_with_model_body ops pc player_name model_type match_data now with
  | Except.ok rp => rp
  | Except.error e =>
      ({ error := some (some ("Error en predicción: " ++ e.msg)),
         prediction := some none, confidence := some none,
         disponible := some (some false) }, pc)
/-- Stage behaviour for the C4 witness: artifact loading raises. -/
def c4_ops : EngineOps Unit Unit Unit Unit :=
  { load_model := fun _ _ => Except.error (PyErr.other ("disk read failed")),
    prepare_prediction_features := fun _ _ _ => Except.ok {},
    preprocess_data := fun _ _ => Except.ok {},
    predict_lstm_stage := fun _ _ => Except.ok {},
    predict_sarimax_stage := fun _ _ => Except.ok {},
    predict_poisson_stage := fun _ _ => Except.ok {} }
/-- C2: for every non-negative raw estimate `r` and every outcome of the two
internal random draws, the integer produced by the probabilistic rounding
rule is `⌊r⌋` or `⌊r⌋ + 1`, and the confidence `1 - |r - rounded|` lies in
`[0, 1]`. -/
theorem redondeo_bounds (r noise u : ℚ) (h : 0 ≤ r) :
    (redondeo_probabilistico_mejorado r noise u = ⌊r⌋ ∨
      redondeo_probabilistico_mejorado r noise u = ⌊r⌋ + 1) ∧
    0 ≤ confidence_from_rounding r (redondeo_probabilistico_mejorado r noise u) ∧
    confidence_from_rounding r (redondeo_probabilistico_mejorado r noise u) ≤ 1 := by
  have hmax : max 0 r = r := max_eq_right h
  have hfr0 : (0:ℚ) ≤ r - (⌊r⌋ : ℚ) := by
    have := Int.floor_le r
    linarith
  have hfr1 : r - (⌊r⌋ : ℚ) < 1 := by
    have := Int.lt_floor_add_one r
    linarith
  have hval : redondeo_probabilistico_mejorado r noise u =
      if u < min (max (r - (⌊r⌋ : ℚ) + noise) 0) 1 then ⌊r⌋ + 1 else ⌊r⌋ := by
    unfold redondeo_probabilistico_mejorado
    rw [hmax]
  by_cases hc : u < min (max (r - (⌊r⌋ : ℚ) + noise) 0) 1
  · rw [hval, if_pos hc]
    unfold confidence_from_rounding
    refine ⟨Or.inr rfl, ?_, ?_⟩
    · rw [abs_of_nonpos (by push_cast; linarith)]
      push_cast
      linarith
    · rw [abs_of_nonpos (by push_cast; linarith)]
      push_cast
      linarith
  · rw [hval, if_neg hc]
    unfold confidence_from_rounding
    refine ⟨Or.inl rfl, ?_, ?_⟩
    · rw [abs_of_nonneg (by linarith)]
      linarith
    · rw [abs_of_nonneg (by linarith)]
      linarith
/-- Witness for C2 at the concrete input `r = 3/2`, `noise = 0`, `u = 1/4`. -/
theorem redondeo_bounds_witness :
    (redondeo_probabilistico_mejorado (3/2) 0 (1/4) = ⌊(3/2 : ℚ)⌋ ∨
      redondeo_probabilistico_mejorado (3/2) 0 (1/4) = ⌊(3/2 : ℚ)⌋ + 1) ∧
    0 ≤ confidence_from_rounding (3/2)
        (redondeo_probabilistico_mejorado (3/2) 0 (1/4)) ∧
    confidence_from_rounding (3/2)
        (redondeo_probabilistico_mejorado (3/2) 0 (1/4)) ≤ 1 :=
  redondeo_bounds (3/2) 0 (1/4) (by norm_num)
/-- Lemma: `optionMapList` succeeds with the pointwise values when every element
computation succeeds. -/
theorem optionMapList_eq_map {α β : Type} (f : α → Option β) (g : α → β)
    (l : List α) (h : ∀ x ∈ l, f x = some (g x)) :
    optionMapList f l = some (l.map g) := by
  induction l with
  | nil => rfl
  | cons a t ih =>
      have ha := h a (List.mem_cons_self a t)
      have ht := ih (fun x hx => h x (List.mem_cons_of_mem a hx))
      simp [optionMapList, ha, ht]
/-- Dividing every value of a weight list by `t` divides its total by `t`. -/
theorem sum_map_div (l : List (String × ℚ)) (t : ℚ) :
    ((l.map fun kv => (kv.1, kv.2 / t)).map (·.2)).sum
      = (l.map (·.2)).sum / t := by
  induction l with
  | nil => simp
  | cons a t' ih =>
      simp [Function.comp] at ih ⊢
      rw [ih, add_div]
/-- The equal-weights fallback assigns the same value to each model. -/
theorem sum_map_equal (avail : List (String × PredictionResult)) (c : ℚ) :
    ((avail.map fun mp => (mp.1, c)).map (·.2)).sum = avail.length * c := by
  induction avail with
  | nil => simp
  | cons a t ih =>
      simp [Function.comp] at ih ⊢
      rw [ih]
      ring
/-- The normalized dynamic weights always total exactly 1 for a non-empty
available set, in both the rescaling branch and the equal-weights
fallback. -/
theorem sum_normalize_dynamic_weights (dyn : List (String × ℚ))
    (avail : List (String × PredictionResult)) (hne : avail ≠ []) :
    ((normalize_dynamic_weights dyn avail).map (·.2)).sum = 1 := by
  unfold normalize_dynamic_weights
  by_cases hpos : 0 < (dyn.map (·.2)).sum
  · rw [if_pos hpos, sum_map_div]
    exact div_self (ne_of_gt hpos)
  · rw [if_neg hpos, sum_map_equal]
    have h0 : avail.length ≠ 0 := fun hl => hne (List.length_eq_zero.mp hl)
    have hlen : (avail.length : ℚ) ≠ 0 := Nat.cast_ne_zero.mpr h0
    field_simp
/-- On a non-empty, well-formed available set the combination path always
succeeds and exposes normalized dynamic weights totalling 1. -/
theorem ensemble_combine_success (avail : List (String × PredictionResult))
    (w : List (String × ℚ)) (noise u : ℚ) (hne : avail ≠ [])
    (hconf : ∀ mp ∈ avail, mp.2.confidence ≠ some none)
    (hraw : ∀ mp ∈ avail, (mp.2.raw_prediction.join).isSome = true) :
    ∃ r dynN, ensemble_combine avail w noise u = some r ∧
      r.dynamic_weights = some (some dynN) ∧ (dynN.map (·.2)).sum = 1 := by
  have hconfval : ∀ mp ∈ avail, confidence_value mp.2.confidence =
      some ((confidence_value mp.2.confidence).getD 0) := by
    intro mp hmp
    have hcne := hconf mp hmp
    unfold confidence_value PyOpt.getOr
    match hx : mp.2.confidence with
    | none => simp
    | some none => exact absurd hx hcne
    | some (some c) => simp
  have hdyn : dynamic_weights_raw avail w = some (avail.map fun mp =>
      (mp.1, ((w.lookup mp.1).getD 1) *
        (1/2 + (confidence_value mp.2.confidence).getD 0))) := by
    apply optionMapList_eq_map
    intro mp hmp
    rw [hconfval mp hmp]
    rfl
  obtain ⟨dyn0, hdyn⟩ : ∃ d, dynamic_weights_raw avail w = some d := ⟨_, hdyn⟩
  have hsum0 : ensemble_weighted_sum avail (normalize_dynamic_weights dyn0 avail)
      = some ((avail.map fun mp => (mp.2.raw_prediction.join.getD 0) *
          (((normalize_dynamic_weights dyn0 avail).lookup mp.1).getD 0)).sum) := by
    have h1 := optionMapList_eq_map
      (fun mp : String × PredictionResult => mp.2.raw_prediction.join.map fun r =>
        r * (((normalize_dynamic_weights dyn0 avail).lookup mp.1).getD 0))
      (fun mp => (mp.2.raw_prediction.join.getD 0) *
        (((normalize_dynamic_weights dyn0 avail).lookup mp.1).getD 0))
      avail ?_
    · unfold ensemble_weighted_sum
      rw [h1]
      rfl
    · intro mp hmp
      have hr := hraw mp hmp
      dsimp only
      rcases hx : mp.2.raw_prediction with _ | o
      · rw [hx] at hr
        exact absurd hr (by simp [Option.join])
      · rcases o with _ | v
        · rw [hx] at hr
          exact absurd hr (by simp [Option.join])
        · rfl
  have hwconf0 : ensemble_weighted_confidence avail (normalize_dynamic_weights dyn0 avail)
      = some ((avail.map fun mp => ((confidence_value mp.2.confidence).getD 0) *
          (((normalize_dynamic_weights dyn0 avail).lookup mp.1).getD 0)).sum) := by
    have h1 := optionMapList_eq_map
      (fun mp : String × PredictionResult => (confidence_value mp.2.confidence).map fun c =>
        c * (((normalize_dynamic_weights dyn0 avail).lookup mp.1).getD 0))
      (fun mp => ((confidence_value mp.2.confidence).getD 0) *
        (((normalize_dynamic_weights dyn0 avail).lookup mp.1).getD 0))
      avail ?_
    · unfold ensemble_weighted_confidence
      rw [h1]
      rfl
    · intro mp hmp
      dsimp only
      rw [hconfval mp hmp]
      rfl
  obtain ⟨es, hsum⟩ :
      ∃ v, ensemble_weighted_sum avail (normalize_dynamic_weights dyn0 avail) = some v :=
    ⟨_, hsum0⟩
  obtain ⟨cs, hwconf⟩ :
      ∃ v, ensemble_weighted_confidence avail (normalize_dynamic_weights dyn0 avail) = some v :=
    ⟨_, hwconf0⟩
  clear hsum0 hwconf0
  refine ⟨{ prediction :=
              some (some (redondeo_probabilistico_mejorado (max 0 es) noise u)),
            confidence := some (some cs),
            raw_prediction := some (some (max 0 es)),
            dynamic_weights := some (some (normalize_dynamic_weights dyn0 avail)),
            disponible := some (some true) },
    normalize_dynamic_weights dyn0 avail, ?_, rfl,
    sum_normalize_dynamic_weights dyn0 avail hne⟩
  unfold ensemble_combine
  rw [hdyn]
  simp only [Option.some_bind]
  rw [hsum]
  simp only [Option.some_bind]
  rw [hwconf]
  simp only [Option.map_some']
/-- C1 (confirmed): for every predictions dict whose available subset (truthy
`disponible` and a `raw_prediction` key) is non-empty and well-formed (no
key stored as `None` where the source does arithmetic), and every input
weight map, `calculate_prediction_ensemble` returns a result whose effective
(confidence-adjusted, renormalized) weights sum to exactly 1 — including the
fallback branch that assigns equal weights when the adjusted total is not
positive. -/
theorem ensemble_weight_conservation
    (predictions : List (String × PredictionResult))
    (weights : Option (List (String × ℚ))) (noise u : ℚ)
    (hne : available_predictions predictions ≠ [])
    (hconf : ∀ mp ∈ available_predictions predictions,
      mp.2.confidence ≠ some none)
    (hraw : ∀ mp ∈ available_predictions predictions,
      (mp.2.raw_prediction.join).isSome = true) :
    ∃ r dynN, calculate_prediction_ensemble predictions weights noise u = some r ∧
      r.dynamic_weights = some (some dynN) ∧ (dynN.map (·.2)).sum = 1 := by
  have hempty : (available_predictions predictions).isEmpty = false := by
    simpa [List.isEmpty_iff] using hne
  obtain ⟨r, dynN, hr, hdw, hsum1⟩ :=
    ensemble_combine_success (available_predictions predictions)
      (weights.getD MODEL_WEIGHTS) noise u hne hconf hraw
  refine ⟨r, dynN, ?_, hdw, hsum1⟩
  simp only [calculate_prediction_ensemble, hempty, Bool.false_eq_true, if_false]
  exact hr
/-- Witness for C1 at a concrete input (single available model with weight
0, triggering the equal-weights fallback). -/
theorem ensemble_weight_conservation_witness :
    ∃ r dynN,
      calculate_prediction_ensemble c1_witness_predictions
        (some [("lstm", 0)]) 0 (1/2) = some r ∧
      r.dynamic_weights = some (some dynN) ∧ (dynN.map (·.2)).sum = 1 :=
  ensemble_weight_conservation c1_witness_predictions (some [("lstm", 0)]) 0 (1/2)
    (by decide) (by decide) (by decide)
/-- C3 (confirmed): when no per-model result passes the availability filter,
the ensemble returns `disponible = False`, `prediction`/`confidence`/
`raw_prediction` all `None`, and a non-empty error message. -/
theorem ensemble_starvation (predictions : List (String × PredictionResult))
    (weights : Option (List (String × ℚ))) (noise u : ℚ)
    (h : available_predictions predictions = []) :
    ∃ r, calculate_prediction_ensemble predictions weights noise u = some r ∧
      r.disponible = some (some false) ∧ r.prediction = some none ∧
      r.confidence = some none ∧ r.raw_prediction = some none ∧
      ∃ s, r.error = some (some s) ∧ s ≠ "" := by
  refine ⟨{ prediction := some none, confidence := some none,
            raw_prediction := some none,
            error := some (some ("No hay predicciones disponibles para ensemble")),
            disponible := some (some false) }, ?_, rfl, rfl, rfl, rfl,
    "No hay predicciones disponibles para ensemble", rfl, by decide⟩
  unfold calculate_prediction_ensemble
  rw [h]
  rfl
/-- Witness for C3 at an all-unavailable concrete predictions dict. -/
theorem ensemble_starvation_witness :
    ∃ r, calculate_prediction_ensemble c3_witness_predictions none 0 (1/2) = some r ∧
      r.disponible = some (some false) ∧ r.prediction = some none ∧
      r.confidence = some none ∧ r.raw_prediction = some none ∧
      ∃ s, r.error = some (some s) ∧ s ≠ "" :=
  ensemble_starvation c3_witness_predictions none 0 (1/2) (by decide)
/-- C10 (confirmed): the ensemble combiner does not mutate its arguments —
the store holding the caller's `predictions` and `weights` dicts is returned
unchanged, and the result is the pure function of their initial values. -/
theorem ensemble_no_mutation (st : EnsembleStores) (noise u : ℚ) :
    (calculate_prediction_ensemble_run st noise u).2 = st ∧
    (calculate_prediction_ensemble_run st noise u).1 =
      calculate_prediction_ensemble st.predictions st.weights noise u := by
  unfold calculate_prediction_ensemble_run calculate_prediction_ensemble
    readWeights readPredictions
  constructor
  · by_cases h : (available_predictions st.predictions).isEmpty <;> simp [h]
  · by_cases h : (available_predictions st.predictions).isEmpty <;> simp [h]
/-- FIFO bounding of `bounded_append` under iteration: starting from any
list within capacity, folding a stream of entries keeps exactly the last
`N`-or-fewer entries of `start ++ stream`, oldest evicted first. -/
theorem bounded_append_foldl {α : Type} (N : ℕ) (es : List α) :
    ∀ ctx : List α, ctx.length ≤ N →
      es.foldl (bounded_append N) ctx = (ctx ++ es).drop (ctx.length + es.length - N) := by
  induction es with
  | nil =>
      intro ctx h
      have h0 : ctx.length + ([] : List α).length - N = 0 := by
        simp
        omega
      rw [h0, List.append_nil, List.drop_zero, List.foldl_nil]
  | cons e es' ih =>
      intro ctx h
      rw [List.foldl_cons]
      by_cases hN : N < (ctx ++ [e]).length
      · have hN' := hN
        simp at hN'
        have hctxlen : ctx.length = N := by omega
        have hstep : bounded_append N ctx e = (ctx ++ [e]).drop 1 := by
          unfold bounded_append
          rw [if_pos hN]
        have hlen1 : ((ctx ++ [e]).drop 1).length ≤ N := by
          simp
          omega
        rw [hstep, ih _ hlen1]
        have hidx : ((ctx ++ [e]).drop 1).length + es'.length - N = es'.length := by
          simp
          omega
        rw [hidx]
        rw [← List.drop_append_of_le_length (by simp)]
        rw [List.drop_drop]
        have hidx2 : ctx.length + (e :: es').length - N = es'.length + 1 := by
          simp
          omega
        rw [hidx2, Nat.add_comm 1 es'.length]
        have happ : ctx ++ [e] ++ es' = ctx ++ e :: es' := by
          rw [List.append_assoc]
          rfl
        rw [happ]
      · have hstep : bounded_append N ctx e = ctx ++ [e] := by
          unfold bounded_append
          rw [if_neg hN]
        have hlen1 : (ctx ++ [e]).length ≤ N := by
          simp at hN ⊢
          omega
        rw [hstep, ih _ hlen1]
        have hidx : (ctx ++ [e]).length + es'.length - N =
            ctx.length + (e :: es').length - N := by
          simp
          omega
        rw [hidx]
        have happ : ctx ++ [e] ++ es' = ctx ++ e :: es' := by
          rw [List.append_assoc]
          rfl
        rw [happ]
/-- Folding `add_prediction` calls for one player acts on that player's
list exactly as folding `bounded_append`, with the capacity fixed by the
context object. -/
theorem foldl_add_prediction_get {μ : Type}
    (es : List (μ × Option ℚ × String)) (player : String) :
    ∀ pc : PredictionContext μ,
      (es.foldl (fun pc e => pc.add_prediction player e.1 e.2.1 e.2.2)
        pc).get_context player =
      (es.map fun e =>
        ({ match_data := e.1, prediction := e.2.1, timestamp := e.2.2 } :
          ContextEntry μ)).foldl
        (bounded_append pc.max_context_size) (pc.get_context player) := by
  induction es with
  | nil => intro pc; rfl
  | cons e es' ih =>
      intro pc
      rw [List.foldl_cons, List.map_cons, List.foldl_cons, ih]
      simp [PredictionContext.add_prediction, PredictionContext.get_context]
/-- C5 (confirmed): starting from the engine's empty context with capacity
10, after any sequence of `add_prediction` calls for one player that
player's list holds exactly `min n 10` entries — the most recently added
entries in insertion order, oldest evicted first — and never exceeds the
capacity. -/
theorem context_bounding {μ : Type} (es : List (μ × Option ℚ × String))
    (player : String) :
    ((es.foldl (fun pc e => pc.add_prediction player e.1 e.2.1 e.2.2)
        (PredictionContext.init μ 10)).get_context player).length =
      min es.length 10 ∧
    (es.foldl (fun pc e => pc.add_prediction player e.1 e.2.1 e.2.2)
        (PredictionContext.init μ 10)).get_context player =
      (es.map fun e =>
        ({ match_data := e.1, prediction := e.2.1, timestamp := e.2.2 } :
          ContextEntry μ)).drop (es.length - 10) := by
  have hfold := foldl_add_prediction_get es player (PredictionContext.init μ 10)
  have hinit : (PredictionContext.init μ 10).get_context player = [] := rfl
  have hmax : (PredictionContext.init μ 10).max_context_size = 10 := rfl
  rw [hinit, hmax] at hfold
  have hdrop := bounded_append_foldl 10
    (es.map fun e =>
      ({ match_data := e.1, prediction := e.2.1, timestamp := e.2.2 } :
        ContextEntry μ)) ([] : List (ContextEntry μ)) (by simp)
  rw [List.nil_append, List.length_nil, Nat.zero_add] at hdrop
  rw [hfold, hdrop]
  constructor
  · rw [List.length_drop, List.length_map]
    omega
  · rw [List.length_map]
/-- C7 counterexample: in the spec's scenario the code's opponent-strength
factor for upcoming opponent A is not `(1.5+1)/(1.4+1) = 25/24 ≈ 1.0417`
(nor within any reasonable tolerance of it). -/
theorem opponent_factor_scenario_counterexample :
    (calcular_factores_oponente c7_history ("A")).2 ≠ 25/24 ∧
    1/5 < |(calcular_factores_oponente c7_history ("A")).2 - 25/24| := by
  have hval : (calcular_factores_oponente c7_history ("A")).2 = 5/6 := by
    simp [calcular_factores_oponente, factor_at_row, mean_goles, fecha_lt,
      fecha_le_row, fecha_leb, c7_history, List.insertionSort, List.orderedInsert,
      List.filter, List.getLast?]
    norm_num
  rw [hval]
  constructor
  · norm_num
  · rw [abs_of_nonpos (by norm_num)]
    norm_num
/-- C7 as amended: in the scenario the factor returned for upcoming opponent
A is the one computed at the most recent historical meeting with A, which
uses only the meetings strictly before it (a single meeting, mean 1.0), so
it equals `(1+1)/(1.4+1) = 5/6 ≈ 0.8333` rather than `(1.5+1)/(1.4+1)`. -/
theorem opponent_factor_scenario_amended :
    mean_goles c7_history = 7/5 ∧
    (calcular_factores_oponente c7_history ("A")).2 =
      (1 + 1) / (mean_goles c7_history + 1) := by
  have hmean : mean_goles c7_history = 7/5 := by
    simp [mean_goles, c7_history]
    norm_num
  have hval : (calcular_factores_oponente c7_history ("A")).2 = 5/6 := by
    simp [calcular_factores_oponente, factor_at_row, mean_goles, fecha_lt,
      fecha_le_row, fecha_leb, c7_history, List.insertionSort, List.orderedInsert,
      List.filter, List.getLast?]
    norm_num
  refine ⟨hmean, ?_⟩
  rw [hval, hmean]
  norm_num
/-- C8 (confirmed): the player slice contains exactly that player's rows,
is sorted ascending by date (undated rows last), and for the single
identifier `'Hugo_Rodallega'` — and no other player — it is additionally
restricted to rows dated on or after 2023-01-01. -/
theorem player_slice_spec (data : List HistRow) (player_name : String) :
    (∀ r ∈ get_player_historical_data data player_name,
      r.jugador = player_name) ∧
    List.Sorted fecha_le_row (get_player_historical_data data player_name) ∧
    (player_name ≠ "Hugo_Rodallega" →
      List.Perm (get_player_historical_data data player_name)
        (data.filter fun r => r.jugador == player_name)) ∧
    (player_name = "Hugo_Rodallega" →
      List.Perm (get_player_historical_data data player_name)
        ((data.filter fun r => r.jugador == player_name).filter
          hugo_date_filter) ∧
      ∀ r ∈ get_player_historical_data data player_name,
        ∃ d, r.fecha = some d ∧ fecha_inicio ≤ d) := by
  by_cases hp : player_name = "Hugo_Rodallega"
  · have hdef : get_player_historical_data data player_name =
        (List.insertionSort fecha_le_row
          (data.filter fun r => r.jugador == player_name)).filter
          hugo_date_filter := by
      simp [get_player_historical_data, hp]
    refine ⟨?_, ?_, fun h => absurd hp h, fun _ => ⟨?_, ?_⟩⟩
    · intro r hr
      rw [hdef, List.mem_filter] at hr
      have hr2 := (List.perm_insertionSort fecha_le_row _).mem_iff.mp hr.1
      rw [List.mem_filter] at hr2
      exact eq_of_beq hr2.2
    · rw [hdef]
      exact (List.sorted_insertionSort fecha_le_row _).filter _
    · rw [hdef]
      exact (List.perm_insertionSort fecha_le_row _).filter _
    · intro r hr
      rw [hdef, List.mem_filter] at hr
      have hd := hr.2
      rcases hx : r.fecha with _ | d
      · simp [hugo_date_filter, hx] at hd
      · refine ⟨d, rfl, ?_⟩
        simp [hugo_date_filter, hx] at hd
        exact hd
  · have hdef : get_player_historical_data data player_name =
        List.insertionSort fecha_le_row
          (data.filter fun r => r.jugador == player_name) := by
      simp [get_player_historical_data, beq_iff_eq, hp]
    refine ⟨?_, ?_, fun _ => ?_, fun h => absurd h hp⟩
    · intro r hr
      rw [hdef] at hr
      have hr2 := (List.perm_insertionSort fecha_le_row _).mem_iff.mp hr
      rw [List.mem_filter] at hr2
      exact eq_of_beq hr2.2
    · rw [hdef]
      exact List.sorted_insertionSort fecha_le_row _
    · rw [hdef]
      exact List.perm_insertionSort fecha_le_row _
/-- Witness for C8: both implications discharged at concrete players. -/
theorem player_slice_spec_witness :
    List.Perm (get_player_historical_data c8_data ("Dayro_Moreno"))
      (c8_data.filter fun r => r.jugador == "Dayro_Moreno") ∧
    List.Perm (get_player_historical_data c8_data ("Hugo_Rodallega"))
      ((c8_data.filter fun r => r.jugador == "Hugo_Rodallega").filter
        hugo_date_filter) :=
  ⟨(player_slice_spec c8_data ("Dayro_Moreno")).2.2.1 (by decide),
   ((player_slice_spec c8_data ("Hugo_Rodallega")).2.2.2 rfl).1⟩
/-- C9 (code bug): when an existing `lstm_<player>.pkl` fails to unpickle,
`load_model` raises `UnboundLocalError` out of its own `except` handler
(whose log f-string reads `file_name`, assigned only in the
sarimax/poisson branches) instead of returning the fail-soft dict built
right below it — as the identical failure for a sarimax artifact does. -/
theorem load_model_lstm_unpickle_raises :
    ModelLoader.load_model c9_env [] ("lstm") ("Carlos_Bacca") =
      Except.error (PyErr.unboundLocal ("file_name")) ∧
    ModelLoader.load_model c9_env [] ("sarimax") ("Carlos_Bacca") =
      Except.ok (unavailable_model_data
        ("Error al cargar el modelo: invalid load key") ("sarimax"), []) :=
  ⟨rfl, rfl⟩
/-- Clamping each loop value at 0 (line 1556) makes the collected list sum
non-negative. -/
theorem sum_clamped_nonneg (l : List ℚ) :
    0 ≤ (l.map fun p => if p < 0 then (0 : ℚ) else p).sum := by
  induction l with
  | nil => simp
  | cons a t ih =>
      simp only [List.map_cons, List.sum_cons]
      have ha : (0 : ℚ) ≤ if a < 0 then (0 : ℚ) else a := by
        split
        · exact le_refl 0
        · linarith [not_lt.mp (by assumption : ¬ a < 0)]
      linarith
/-- A well-formed error field (never a key holding `None`) yields a string
when read with a string default. -/
theorem error_getOr_some (f : PyOpt String) (d : String)
    (hwf : f ≠ some none) : ∃ s, f.getOr (some d) = some s := by
  match f with
  | none => exact ⟨d, rfl⟩
  | some none => exact absurd rfl hwf
  | some (some s) => exact ⟨s, rfl⟩
/-- The availability invariant of `_predict_lstm`, with the derivation of
prediction and confidence from the raw estimate explicit in the outcome of
the random draws. -/
theorem predict_lstm_invariant {K S E : Type} (hasTF : Bool)
    (md : ModelData K S E) (pd : ProcessedData) (env : LstmEnv)
    (hwf : pd.error ≠ some none) :
    ((predict_lstm hasTF md pd env).disponible = some (some false) →
      (predict_lstm hasTF md pd env).prediction = some none ∧
      (predict_lstm hasTF md pd env).confidence = some none ∧
      ∃ s, (predict_lstm hasTF md pd env).error = some (some s)) ∧
    ((predict_lstm hasTF md pd env).disponible = some (some true) →
      ∃ raw, (predict_lstm hasTF md pd env).raw_prediction = some (some raw) ∧
        0 ≤ raw ∧
        (predict_lstm hasTF md pd env).prediction =
          some (some (redondeo_probabilistico_mejorado raw env.noise env.u)) ∧
        (predict_lstm hasTF md pd env).confidence =
          some (some (confidence_from_rounding raw
            (redondeo_probabilistico_mejorado raw env.noise env.u)))) := by
  obtain ⟨s0, hs0⟩ := error_getOr_some pd.error ("Datos no disponibles para LSTM") hwf
  unfold predict_lstm
  split
  · exact ⟨fun _ => ⟨rfl, rfl, _, rfl⟩, fun h => by simp at h⟩
  · split
    · exact ⟨fun _ => ⟨rfl, rfl, s0, by simp [hs0]⟩, fun h => by simp at h⟩
    · split
      · split
        · exact ⟨fun _ => ⟨rfl, rfl, _, rfl⟩, fun h => by simp at h⟩
        · dsimp only
          split
          · exact ⟨fun _ => ⟨rfl, rfl, _, rfl⟩, fun h => by simp at h⟩
          · refine ⟨fun h => by simp at h, fun _ => ⟨_, rfl, ?_, rfl, rfl⟩⟩
            exact div_nonneg (sum_clamped_nonneg _) (by positivity)
      · split
        · split
          · exact ⟨fun _ => ⟨rfl, rfl, _, rfl⟩, fun h => by simp at h⟩
          · refine ⟨fun h => by simp at h, fun _ => ⟨_, rfl, le_max_left 0 _, rfl, rfl⟩⟩
        · exact ⟨fun _ => ⟨rfl, rfl, _, rfl⟩, fun h => by simp at h⟩
/-- The availability invariant of `_predict_sarimax`. -/
theorem predict_sarimax_invariant {K S E : Type} (md : ModelData K S E)
    (pd : ProcessedData) (env : SarimaxEnv) (hwf : pd.error ≠ some none) :
    ((predict_sarimax md pd env).disponible = some (some false) →
      (predict_sarimax md pd env).prediction = some none ∧
      (predict_sarimax md pd env).confidence = some none ∧
      ∃ s, (predict_sarimax md pd env).error = some (some s)) ∧
    ((predict_sarimax md pd env).disponible = some (some true) →
      ∃ raw, (predict_sarimax md pd env).raw_prediction = some (some raw) ∧
        0 ≤ raw ∧
        (predict_sarimax md pd env).prediction =
          some (some (redondeo_probabilistico_mejorado raw env.noise env.u)) ∧
        (predict_sarimax md pd env).confidence =
          some (some (confidence_from_rounding raw
            (redondeo_probabilistico_mejorado raw env.noise env.u)))) := by
  obtain ⟨s0, hs0⟩ := error_getOr_some pd.error ("Datos no disponibles para SARIMAX") hwf
  unfold predict_sarimax
  split
  · exact ⟨fun _ => ⟨rfl, rfl, s0, by simp [hs0]⟩, fun h => by simp at h⟩
  · split
    · split
      · exact ⟨fun _ => ⟨rfl, rfl, _, rfl⟩, fun h => by simp at h⟩
      · refine ⟨fun h => by simp at h, fun _ => ⟨_, rfl, le_max_left 0 _, rfl, rfl⟩⟩
    · exact ⟨fun _ => ⟨rfl, rfl, _, rfl⟩, fun h => by simp at h⟩
/-- The availability invariant of `_predict_poisson`: on success the raw
estimate is the λ clamped into `[0, 5]`, the integer prediction is the mode
of the 10 Poisson draws, and the confidence is its probability under the
reported distribution. -/
theorem predict_poisson_invariant {K S E : Type} (md : ModelData K S E)
    (pd : ProcessedData) (env : PoissonEnv) (hwf : pd.error ≠ some none) :
    ((predict_poisson md pd env).disponible = some (some false) →
      (predict_poisson md pd env).prediction = some none ∧
      (predict_poisson md pd env).confidence = some none ∧
      ∃ s, (predict_poisson md pd env).error = some (some s)) ∧
    ((predict_poisson md pd env).disponible = some (some true) →
      ∃ raw, (predict_poisson md pd env).raw_prediction = some (some raw) ∧
        0 ≤ raw ∧ raw ≤ 5 ∧
        (predict_poisson md pd env).prediction =
          some (some ((moda ((List.range 10).map env.draws) : ℕ) : ℤ)) ∧
        (predict_poisson md pd env).confidence =
          some (some (poisson_confidence env raw))) := by
  obtain ⟨s0, hs0⟩ := error_getOr_some pd.error ("Datos no disponibles para Poisson") hwf
  unfold predict_poisson
  split
  · exact ⟨fun _ => ⟨rfl, rfl, s0, by simp [hs0]⟩, fun h => by simp at h⟩
  · split
    · split
      · exact ⟨fun _ => ⟨rfl, rfl, _, rfl⟩, fun h => by simp at h⟩
      · refine ⟨fun h => by simp at h, fun _ => ⟨_, rfl, ?_, ?_, rfl, rfl⟩⟩
        · exact le_min (le_max_left 0 _) (by norm_num)
        · exact min_le_right _ _
    · exact ⟨fun _ => ⟨rfl, rfl, _, rfl⟩, fun h => by simp at h⟩
/-- C6 as amended: every result of the three inference adapters satisfies
the availability invariant — `disponible=false` implies null prediction and
confidence with an error string present; `disponible=true` implies a
non-negative raw estimate from which prediction and confidence are derived
by the documented rule, deterministically given the outcomes of the
internal random draws (rounding draws for LSTM/SARIMAX, the Poisson samples
for the count model).  The well-formedness hypothesis excludes a processed
dict whose `error` key holds `None`, on which the source would propagate
rather than return. -/
theorem adapter_results_invariant {K S E : Type} (hasTF : Bool)
    (md : ModelData K S E) (pd : ProcessedData)
    (envL : LstmEnv) (envS : SarimaxEnv) (envP : PoissonEnv)
    (hwf : pd.error ≠ some none) :
    (((predict_lstm hasTF md pd envL).disponible = some (some false) →
      (predict_lstm hasTF md pd envL).prediction = some none ∧
      (predict_lstm hasTF md pd envL).confidence = some none ∧
      ∃ s, (predict_lstm hasTF md pd envL).error = some (some s)) ∧
    ((predict_lstm hasTF md pd envL).disponible = some (some true) →
      ∃ raw, (predict_lstm hasTF md pd envL).raw_prediction = some (some raw) ∧
        0 ≤ raw ∧
        (predict_lstm hasTF md pd envL).prediction =
          some (some (redondeo_probabilistico_mejorado raw envL.noise envL.u)) ∧
        (predict_lstm hasTF md pd envL).confidence =
          some (some (confidence_from_rounding raw
            (redondeo_probabilistico_mejorado raw envL.noise envL.u))))) ∧
    (((predict_sarimax md pd envS).disponible = some (some false) →
      (predict_sarimax md pd envS).prediction = some none ∧
      (predict_sarimax md pd envS).confidence = some none ∧
      ∃ s, (predict_sarimax md pd envS).error = some (some s)) ∧
    ((predict_sarimax md pd envS).disponible = some (some true) →
      ∃ raw, (predict_sarimax md pd envS).raw_prediction = some (some raw) ∧
        0 ≤ raw ∧
        (predict_sarimax md pd envS).prediction =
          some (some (redondeo_probabilistico_mejorado raw envS.noise envS.u)) ∧
        (predict_sarimax md pd envS).confidence =
          some (some (confidence_from_rounding raw
            (redondeo_probabilistico_mejorado raw envS.noise envS.u))))) ∧
    (((predict_poisson md pd envP).disponible = some (some false) →
      (predict_poisson md pd envP).prediction = some none ∧
      (predict_poisson md pd envP).confidence = some none ∧
      ∃ s, (predict_poisson md pd envP).error = some (some s)) ∧
    ((predict_poisson md pd envP).disponible = some (some true) →
      ∃ raw, (predict_poisson md pd envP).raw_prediction = some (some raw) ∧
        0 ≤ raw ∧ raw ≤ 5 ∧
        (predict_poisson md pd envP).prediction =
          some (some ((moda ((List.range 10).map envP.draws) : ℕ) : ℤ)) ∧
        (predict_poisson md pd envP).confidence =
          some (some (poisson_confidence envP raw)))) :=
  ⟨predict_lstm_invariant hasTF md pd envL hwf,
   predict_sarimax_invariant md pd envS hwf,
   predict_poisson_invariant md pd envP hwf⟩
/-- C6 counterexample: two runs of `_predict_sarimax` on the same bundle,
processed data and raw forecast 0.5 — differing only in the internal
uniform draw — both succeed with the same raw estimate but different
integer predictions, so prediction is not derived from the raw estimate
deterministically. -/
theorem adapter_derivation_not_deterministic :
    (predict_sarimax c6_md c6_pd c6_env1).raw_prediction =
      (predict_sarimax c6_md c6_pd c6_env2).raw_prediction ∧
    (predict_sarimax c6_md c6_pd c6_env1).disponible = some (some true) ∧
    (predict_sarimax c6_md c6_pd c6_env2).disponible = some (some true) ∧
    (predict_sarimax c6_md c6_pd c6_env1).prediction ≠
      (predict_sarimax c6_md c6_pd c6_env2).prediction := by
  have h1 : (predict_sarimax c6_md c6_pd c6_env1).prediction = some (some 1) := by
    simp [predict_sarimax, c6_md, c6_pd, c6_env1, processed_unavailable,
      PyOpt.truthyOr, PyOpt.containsKey, PyOpt.getOr,
      redondeo_probabilistico_mejorado]
    rw [Int.fract]
    norm_num
  have h2 : (predict_sarimax c6_md c6_pd c6_env2).prediction = some (some 0) := by
    simp [predict_sarimax, c6_md, c6_pd, c6_env2, processed_unavailable,
      PyOpt.truthyOr, PyOpt.containsKey, PyOpt.getOr,
      redondeo_probabilistico_mejorado]
    rw [Int.fract]
    norm_num
  refine ⟨rfl, rfl, rfl, ?_⟩
  rw [h1, h2]
  simp
/-- Witness for the amended C6: the SARIMAX available-side implication at a
concrete successful run. -/
theorem adapter_results_invariant_witness :
    ∃ raw, (predict_sarimax c6_md c6_pd c6_env1).raw_prediction =
        some (some raw) ∧
      0 ≤ raw ∧
      (predict_sarimax c6_md c6_pd c6_env1).prediction =
        some (some (redondeo_probabilistico_mejorado raw c6_env1.noise c6_env1.u)) ∧
      (predict_sarimax c6_md c6_pd c6_env1).confidence =
        some (some (confidence_from_rounding raw
          (redondeo_probabilistico_mejorado raw c6_env1.noise c6_env1.u))) :=
  ((adapter_results_invariant true c6_md c6_pd
      { predict_vals := fun _ => Except.ok 1,
        predict_entrenado := Except.ok 1, noise := 0, u := 1/4 }
      c6_env1
      { lambda_val := Except.ok 1, draws := fun _ => 1, pmf := fun _ _ => 0 }
      (by decide)).2.1).2 rfl
/-- Prefixing the caught exception's text keeps the message non-empty. -/
theorem error_prefix_ne_empty (m : String) :
    ("Error en predicción: " ++ m) ≠ "" := by
  intro h
  have h2 := congrArg String.length h
  rw [String.length_append] at h2
  have h3 : ("Error en predicción: " : String).length = 21 := rfl
  have h0 : ("" : String).length = 0 := rfl
  omega
/-- C4 (confirmed): for every behaviour of the four stages, every player,
every model kind and every match context, `predict_with_model` returns a
result pair (it cannot propagate an exception: its type is not `Except`),
and whenever the `try` body raises, the returned result has
`disponible = False`, null prediction/confidence, and a non-empty error
message. -/
theorem predict_with_model_no_propagation {K S E μ : Type}
    (ops : EngineOps K S E μ) (pc : PredictionContext μ)
    (player_name model_type : String) (match_data : μ) (now : String) :
    (∃ r pc', predict_with_model ops pc player_name model_type match_data now =
      (r, pc')) ∧
    (∀ e, predict_with_model_body ops pc player_name model_type match_data now =
        Except.error e →
      (predict_with_model ops pc player_name model_type match_data now).1.disponible =
        some (some false) ∧
      (predict_with_model ops pc player_name model_type match_data now).1.prediction =
        some none ∧
      (predict_with_model ops pc player_name model_type match_data now).1.confidence =
        some none ∧
      ∃ s, (predict_with_model ops pc player_name model_type match_data now).1.error =
          some (some s) ∧ s ≠ "") := by
  refine ⟨⟨_, _, rfl⟩, fun e he => ?_⟩
  unfold predict_with_model
  rw [he]
  exact ⟨rfl, rfl, rfl, "Error en predicción: " ++ e.msg, rfl,
    error_prefix_ne_empty e.msg⟩
/-- Witness for C4 at a concrete raising stage. -/
theorem predict_with_model_no_propagation_witness :
    (predict_with_model c4_ops (PredictionContext.init Unit 10)
        ("Carlos_Bacca") ("lstm") () ("t0")).1.disponible = some (some false) ∧
    (predict_with_model c4_ops (PredictionContext.init Unit 10)
        ("Carlos_Bacca") ("lstm") () ("t0")).1.prediction = some none ∧
    (predict_with_model c4_ops (PredictionContext.init Unit 10)
        ("Carlos_Bacca") ("lstm") () ("t0")).1.confidence = some none ∧
    ∃ s, (predict_with_model c4_ops (PredictionContext.init Unit 10)
        ("Carlos_Bacca") ("lstm") () ("t0")).1.error = some (some s) ∧ s ≠ "" :=
  (predict_with_model_no_propagation c4_ops (PredictionContext.init Unit 10)
    ("Carlos_Bacca") ("lstm") () ("t0")).2
    (PyErr.other ("disk read failed")) rfl
